import Mathlib

/-! Package godatatables: the SQL text built by `DataTables`.

A shallow embedding of `DataTables` (datatables.go).  The handler builds three SQL
statements by string concatenation: the total count (`query`), the filtered count
(`countFiltered`) and the page of rows (`statement`).  Go strings are embedded as
`String`; the two accumulators `statement` and `countFiltered`, which the source
extends side by side, are threaded through the steps as a pair.  The database is a
collaborator: its answers to the three queries are arguments of the handler, whose
outcome is the response, the exit of `log.Fatal`, or a run-time panic.
-/

namespace Godatatables

/-! ## Library functions used by the handler -/

/-- Does the character list `s` start with `p`? -/
def startsWithL : List Char → List Char → Bool
  | _, [] => true
  | [], _ :: _ => false
  | a :: s, b :: p => a == b && startsWithL s p

/-- Substring test on character lists: `sub` occurs at some offset of `s`. -/
def ContainsL : List Char → List Char → Bool
  | [], sub => sub.isEmpty
  | c :: s, sub => startsWithL (c :: s) sub || ContainsL s sub

/-- Go `strings.Contains(s, substr)`: `substr` occurs within `s`; the empty string occurs
in every string. -/
def Contains (s substr : String) : Bool :=
  ContainsL s.data substr.data

/-- What `strconv.ParseUint` returns: a syntax error (value 0), a range error (value
`1<<64 - 1`), or the parsed value with a nil error. -/
inductive UintResult where
  | syntaxError
  | rangeError
  | value (n : Nat)
deriving DecidableEq, Repr

/-- The loop of Go `strconv.ParseUint(s, 10, 64)` over the bytes of `s`, `n` being the
`uint64` accumulator.  A byte that is not a decimal digit is a syntax error; a digit at
which `n >= cutoff` (`n*10` overflows) or at which `n*10 + d` wraps around is a range
error, returned at once, the later bytes being never read. -/
def ParseUintLoop : List Char → Nat → UintResult
  | [], n => UintResult.value n
  | c :: cs, n =>
    if c.isDigit then
      let d := c.toNat - 48
      if 1844674407370955162 ≤ n then UintResult.rangeError
      else
        let n := n * 10
        let n1 := (n + d) % 18446744073709551616
        if n1 < n ∨ 18446744073709551615 < n1 then UintResult.rangeError
        else ParseUintLoop cs n1
    else UintResult.syntaxError

/-- Go `strconv.ParseUint(s, 10, 64)`: the empty text is a syntax error. -/
def ParseUint (s : List Char) : UintResult :=
  match s with
  | [] => UintResult.syntaxError
  | c :: cs => ParseUintLoop (c :: cs) 0

/-- Go `strconv.Atoi(s)` with a 64-bit `int`, that is `strconv.ParseInt(s, 10, 0)` (the
fast path of `Atoi` for texts shorter than 19 bytes returns the same): the returned
value and whether the error is nil.  A leading `+` or `-` is picked off and the rest
parsed by `ParseUint`; a syntax error returns 0, and a value outside the `int` range,
or a range error of `ParseUint`, returns the nearest bound of the range, with an
error. -/
def Atoi (s : String) : Int × Bool :=
  match s.data with
  | [] => (0, false)
  | c :: cs =>
    let neg : Bool := c == '-'
    let body := if c == '+' || c == '-' then cs else c :: cs
    match ParseUint body with
    | UintResult.syntaxError => (0, false)
    | UintResult.rangeError =>
      if neg then (-(2 ^ 63), false) else (2 ^ 63 - 1, false)
    | UintResult.value un =>
      if !neg && decide (2 ^ 63 ≤ un) then (2 ^ 63 - 1, false)
      else if neg && decide (2 ^ 63 < un) then (-(2 ^ 63), false)
      else (if neg then -(un : Int) else (un : Int), true)

/-- A request, as far as the handler reads it: its form values, in order. -/
structure Request where
  Form : List (String × String)

/-- Go `r.FormValue(key)`: the first value of `key`, the empty string when absent. -/
def FormValue (r : Request) (key : String) : String :=
  match r.Form.lookup key with
  | some v => v
  | none => ""

/-! ## Data model -/

/-- An SQL column (`type Column struct`). -/
structure Column where
  Name : String
  Search : String
  Display : String
  Order : String
deriving DecidableEq, Repr

/-- Go slice indexing `columns[i]` with an `int` index: `none` stands for the
run-time panic on an index that is negative or not below the length. -/
def index (columns : List Column) (i : Int) : Option Column :=
  if i < 0 then none else columns.get? i.toNat

/-! ## The total-count statement (lines 41-55) -/

/-- The text `query` passed to `db.Query`. -/
def totalQuery (t additionalWhere groupBy : String) : String :=
  let query := "SELECT COUNT(*) FROM " ++ t
  let query :=
    if groupBy ≠ "" then
      ("SELECT COUNT(*) FROM (SELECT COUNT(*) FROM " ++ t) ++ (" GROUP BY " ++ groupBy)
    else query
  let query := if additionalWhere ≠ "" then query ++ (" WHERE " ++ additionalWhere) else query
  let query := if groupBy ≠ "" then query ++ ") AS count_table" else query
  query

/-! ## The filtered-count and page-data statements (lines 73-153) -/

/-- The two accumulators `statement` and `countFiltered`. -/
structure Acc where
  statement : String
  countFiltered : String
deriving DecidableEq, Repr

/-- Lines 73-80: initial values of the accumulators. -/
def initAcc (t groupBy : String) : Acc :=
  { statement := "SELECT "
    countFiltered :=
      if groupBy ≠ "" then "SELECT COUNT(*) FROM (SELECT COUNT(*) FROM " ++ t ++ " WHERE "
      else "SELECT COUNT(*) FROM " ++ t ++ " WHERE " }

/-- Lines 83-101: the loop over `columns` building the SELECT list; `n` is
`len(columns)` and the first argument after it the loop index `i`. -/
def selectLoop (groupBy : String) (n : Nat) : Nat → List Column → String → String
  | _, [], statement => statement
  | i, column :: rest, statement =>
    let statement :=
      if groupBy = "" then
        if column.Display = "" then
          statement ++ ("IF(ISNULL(" ++ column.Name ++ "),\"\"," ++ column.Name ++ ")")
        else
          statement ++ ("IF(ISNULL(" ++ column.Display ++ "),\"\"," ++ column.Display ++ ")")
      else
        if column.Display = "" then statement ++ column.Name
        else statement ++ column.Display
    let statement := if i + 1 ≠ n then statement ++ ", " else statement
    selectLoop groupBy n (i + 1) rest statement

/-- Lines 105-109: open the additional where clause. -/
def openWhere (additionalWhere : String) (a : Acc) : Acc :=
  if additionalWhere ≠ "" then
    { statement := a.statement ++ ("(" ++ additionalWhere ++ ") AND (")
      countFiltered := a.countFiltered ++ ("(" ++ additionalWhere ++ ") AND (") }
  else a

/-- Lines 111-121: the loop collecting `searchColumns`. -/
def searchColumnsLoop (groupBy : String) : List Column → List Column → List Column
  | [], searchColumns => searchColumns
  | column :: rest, searchColumns =>
    let searchColumns :=
      if groupBy = "" then searchColumns ++ [column]
      else
        if Contains groupBy column.Name || (Contains groupBy column.Search && column.Search != "")
        then searchColumns ++ [column]
        else searchColumns
    searchColumnsLoop groupBy rest searchColumns

/-- The slice `searchColumns` after the loop of lines 113-121. -/
def searchColumns (groupBy : String) (columns : List Column) : List Column :=
  searchColumnsLoop groupBy columns []

/-- Lines 124-140: the loop over `searchColumns`; `n` is `len(searchColumns)` and the
first argument after it the loop index `i`. -/
def searchLoop (n : Nat) : Nat → List Column → Acc → Acc
  | _, [], a => a
  | i, column :: rest, a =>
    let a : Acc :=
      if column.Search = "" then
        { statement := a.statement ++ column.Name
          countFiltered := a.countFiltered ++ column.Name }
      else
        { statement := a.statement ++ column.Search
          countFiltered := a.countFiltered ++ column.Search }
    let a : Acc :=
      { statement := a.statement ++ " LIKE CONCAT('%', :search, '%')"
        countFiltered := a.countFiltered ++ " LIKE CONCAT('%', :search, '%')" }
    let a : Acc :=
      if i + 1 ≠ n then
        { statement := a.statement ++ " OR "
          countFiltered := a.countFiltered ++ " OR " }
      else a
    searchLoop n (i + 1) rest a

/-- Lines 142-146: close the additional where clause. -/
def closeWhere (additionalWhere : String) (a : Acc) : Acc :=
  if additionalWhere ≠ "" then
    { statement := a.statement ++ ")"
      countFiltered := a.countFiltered ++ ")" }
  else a

/-- Lines 150-153: the GROUP BY clause. -/
def groupClause (groupBy : String) (a : Acc) : Acc :=
  if groupBy ≠ "" then
    { statement := a.statement ++ (" GROUP BY " ++ groupBy)
      countFiltered := a.countFiltered ++ (" GROUP BY " ++ groupBy ++ ") AS count_table") }
  else a

/-- Lines 105-146: the steps that write the WHERE condition into both accumulators. -/
def whereSteps (additionalWhere groupBy : String) (columns : List Column) (a : Acc) : Acc :=
  let a := openWhere additionalWhere a
  let sc := searchColumns groupBy columns
  let a := searchLoop sc.length 0 sc a
  closeWhere additionalWhere a

/-- The accumulators at line 103, after the SELECT list and ` FROM t WHERE `. -/
def fromAcc (t groupBy : String) (columns : List Column) : Acc :=
  let a := initAcc t groupBy
  let statement := selectLoop groupBy columns.length 0 columns a.statement
  { statement := statement ++ (" FROM " ++ t ++ " WHERE ")
    countFiltered := a.countFiltered }

/-- The accumulators after line 153: `countFiltered` is complete and `statement`
lacks only its ORDER BY and LIMIT clauses. -/
def buildAcc (t additionalWhere groupBy : String) (columns : List Column) : Acc :=
  groupClause groupBy (whereSteps additionalWhere groupBy columns (fromAcc t groupBy columns))

/-- The text `countFiltered` passed to the first `db.NamedQuery`. -/
def countFilteredQuery (t additionalWhere groupBy : String) (columns : List Column) : String :=
  (buildAcc t additionalWhere groupBy columns).countFiltered

/-- The named arguments of the filtered-count query (lines 156-158). -/
def countFilteredArgs (r : Request) : List (String × String) :=
  [("search", FormValue r "search[value]")]

/-! ## ORDER BY and LIMIT (lines 174-198) -/

/-- Lines 174-192 applied to the text of `statement` after line 153; `none` is the
panic of `columns[orderColumnNumber]`. -/
def orderLimit (r : Request) (columns : List Column) (statement : String) : Option String :=
  let orderColumnNumber := (Atoi (FormValue r "order[0][column]")).1
  match index columns orderColumnNumber with
  | none => none
  | some orderColumn =>
    let name := if orderColumn.Order = "" then orderColumn.Name else orderColumn.Order
    let statement :=
      statement ++ (" ORDER BY " ++ name ++ " " ++ FormValue r "order[0][dir]")
    let length := FormValue r "length"
    let statement :=
      if length ≠ "-1" then statement ++ " LIMIT :length OFFSET :start" else statement
    some statement

/-- The text `statement` passed to the second `db.NamedQuery`. -/
def pageStatement (r : Request) (t additionalWhere groupBy : String)
    (columns : List Column) : Option String :=
  orderLimit r columns (buildAcc t additionalWhere groupBy columns).statement

/-- The named arguments of the page-data query (lines 194-198). -/
def pageArgs (r : Request) : List (String × String) :=
  [("search", FormValue r "search[value]"),
   ("length", FormValue r "length"),
   ("start", FormValue r "start")]

/-- The three SQL texts and their named arguments, as the handler passes them to the
database.  `statement` is `none` when `columns[orderColumnNumber]` panics, in which case
the page-data query is never issued. -/
structure Queries where
  total : String
  countFiltered : String
  countFilteredArgs : List (String × String)
  statement : Option String
  statementArgs : List (String × String)

/-- The queries of one call of `DataTables`. -/
def queries (r : Request) (t additionalWhere groupBy : String) (columns : List Column) :
    Queries :=
  { total := totalQuery t additionalWhere groupBy
    countFiltered := countFilteredQuery t additionalWhere groupBy columns
    countFilteredArgs := countFilteredArgs r
    statement := pageStatement r t additionalWhere groupBy columns
    statementArgs := pageArgs r }

/-! ## Query results and the response (lines 57-71, 156-172, 194-255) -/

/-- A value as the driver stores it into an `interface{}` destination.  Byte slices,
like Go strings, are embedded as `String`; a `float64` is carried as its bit pattern
and a `time.Time` as an instant, neither is computed with. -/
inductive Value where
  | bytes (b : String)
  | int64 (i : Int)
  | float64 (bits : Nat)
  | time (t : Int)
  | null
  | other (kind : String)
deriving DecidableEq, Repr

/-- A value appended to the row `m`: a string, an `int64`, a `float64` or a `time.Time`. -/
inductive Cell where
  | str (s : String)
  | int64 (i : Int)
  | float64 (bits : Nat)
  | time (t : Int)
deriving DecidableEq, Repr

/-- Lines 223-237: the loop over the scanned values of one row with its type switch,
which has no case for nil or for any other dynamic type. -/
def projectLoop : List Value → List Cell → List Cell
  | [], m => m
  | value :: rest, m =>
    let m :=
      match value with
      | Value.bytes b => m ++ [Cell.str b]
      | Value.int64 i => m ++ [Cell.int64 i]
      | Value.float64 f => m ++ [Cell.float64 f]
      | Value.time t => m ++ [Cell.time t]
      | _ => m
    projectLoop rest m

/-- One row delivered by `rows.Next()`: the values of the driver, or a row that cannot
be read. -/
inductive DriverRow where
  | values (vs : List Value)
  | broken
deriving DecidableEq, Repr

/-- Go `rows.Scan(columnPointers...)` with `n = len(cols)` destinations of type
`*interface{}`: the values it stores in `columns`, or `none` when it returns an error
(an unreadable row, or a number of values other than the number of destinations). -/
def Scan (n : Nat) : DriverRow → Option (List Value)
  | DriverRow.values vs => if vs.length = n then some vs else none
  | DriverRow.broken => none

/-- Lines 212-241: the loop over the rows of the page-data result; a row is appended to
`result` only when `Scan` returns no error. -/
def rowsLoop (n : Nat) : List DriverRow → List (List Cell) → List (List Cell)
  | [], result => result
  | row :: rest, result =>
    match Scan n row with
    | some columns => rowsLoop n rest (result ++ [projectLoop columns []])
    | none => rowsLoop n rest result

/-- The open result of the page-data query: `rows.Columns()` and the rows that
`rows.Next()` delivers. -/
structure Rows where
  Columns : List String
  next : List DriverRow

/-- Lines 67-71 and 168-172: the loop scanning each row of a count query into the
`int` variable; a row is given by the outcome of its `Scan`, `none` being an error,
on which `log.Fatal` ends the process (`none`). -/
def countLoop : List (Option Int) → Int → Option Int
  | [], total => some total
  | none :: _, _ => none
  | some n :: rest, _ => countLoop rest n

/-- The database as the handler uses it: the answers to `db.Query(query)` and to the
two calls of `db.NamedQuery`, `none` being a returned error (with which sqlx returns a
nil `*Rows`). -/
structure Database where
  Query : String → Option (List (Option Int))
  NamedQueryCount : String → List (String × String) → Option (List (Option Int))
  NamedQueryRows : String → List (String × String) → Option Rows

/-- The value stored under `data`: the integer 0 or the rows. -/
inductive Data where
  | zero
  | rows (result : List (List Cell))
deriving DecidableEq, Repr

/-- The map `output` passed to the JSON encoder. -/
structure Output where
  draw : Int
  recordsTotal : Int
  recordsFiltered : Int
  data : Data
deriving DecidableEq, Repr

/-- How a call of `DataTables` ends: `log.Fatal` exits the process, a run-time panic,
or the response is written. -/
inductive Outcome where
  | fatal
  | panic
  | response (output : Output)
deriving DecidableEq, Repr

/-- Lines 243-253: the map `output`. -/
def respond (r : Request) (total filtered : Int) (result : List (List Cell)) : Output :=
  { draw := (Atoi (FormValue r "draw")).1
    recordsTotal := total
    recordsFiltered := filtered
    data := if result.length = 0 then Data.zero else Data.rows result }

/-- Lines 194-241: the page-data query and the loop over its rows.  The error of
`NamedQuery` is only printed (line 201); `rows` is then nil and `rows.Columns()`
(line 204) dereferences it, a panic (`none`). -/
def pageRows (db : Database) (r : Request) (statement : String) :
    Option (List (List Cell)) :=
  match db.NamedQueryRows statement (pageArgs r) with
  | none => none
  | some rows =>
    let cols := rows.Columns
    some (rowsLoop cols.length rows.next [])

/-- The handler `DataTables`. -/
def DataTables (db : Database) (r : Request) (t additionalWhere groupBy : String)
    (columns : List Column) : Outcome :=
  match db.Query (totalQuery t additionalWhere groupBy) with
  | none => Outcome.fatal
  | some arows =>
    match countLoop arows 0 with
    | none => Outcome.fatal
    | some total =>
      match db.NamedQueryCount (countFilteredQuery t additionalWhere groupBy columns)
          (countFilteredArgs r) with
      | none => Outcome.fatal
      | some rows =>
        match countLoop rows 0 with
        | none => Outcome.fatal
        | some filtered =>
          match pageStatement r t additionalWhere groupBy columns with
          | none => Outcome.panic
          | some statement =>
            match pageRows db r statement with
            | none => Outcome.panic
            | some result => Outcome.response (respond r total filtered result)

/-! ## Specification-side definitions -/

/-- The search expression of a column: its `Search`, or its `Name` when blank. -/
def searchExpr (c : Column) : String :=
  if c.Search = "" then c.Name else c.Search

/-- The LIKE term of a column. -/
def likeTerm (c : Column) : String :=
  searchExpr c ++ " LIKE CONCAT('%', :search, '%')"

/-- Terms joined by ` OR `: a separator between neighbours, none leading or trailing. -/
def orJoin : List String → String
  | [] => ""
  | [a] => a
  | a :: b :: rest => a ++ " OR " ++ orJoin (b :: rest)

/-- The search disjunction: the LIKE terms of the search-eligible columns. -/
def disjunction (groupBy : String) (columns : List Column) : String :=
  orJoin ((searchColumns groupBy columns).map likeTerm)

/-- The WHERE condition: the parenthesised additional filter AND-joined with the
parenthesised disjunction when a filter is given, the bare disjunction otherwise. -/
def whereText (additionalWhere groupBy : String) (columns : List Column) : String :=
  if additionalWhere ≠ "" then "(" ++ additionalWhere ++ ") AND (" ++ disjunction groupBy columns ++ ")"
  else disjunction groupBy columns

/-- Search eligibility of a column under the grouping expression. -/
def eligible (groupBy : String) (c : Column) : Bool :=
  groupBy = "" || Contains groupBy c.Name || (Contains groupBy c.Search && c.Search != "")

/-- The text of the filtered-count statement before its WHERE condition. -/
def countHead (t groupBy : String) : String :=
  if groupBy ≠ "" then "SELECT COUNT(*) FROM (SELECT COUNT(*) FROM " ++ t ++ " WHERE "
  else "SELECT COUNT(*) FROM " ++ t ++ " WHERE "

/-- The text of the filtered-count statement after its WHERE condition. -/
def countTail (groupBy : String) : String :=
  if groupBy ≠ "" then " GROUP BY " ++ groupBy ++ ") AS count_table" else ""

/-- The text of the page-data statement before its WHERE condition: the SELECT list
as the loop of lines 83-101 leaves it, then ` FROM t WHERE `. -/
def pageHead (t groupBy : String) (columns : List Column) : String :=
  selectLoop groupBy columns.length 0 columns "SELECT " ++ " FROM " ++ t ++ " WHERE "

/-- The GROUP BY clause of the page-data statement. -/
def pageGroup (groupBy : String) : String :=
  if groupBy ≠ "" then " GROUP BY " ++ groupBy else ""

/-- The order expression of a column: its `Order`, or its `Name` when blank. -/
def orderExpr (c : Column) : String :=
  if c.Order = "" then c.Name else c.Order

/-- The LIMIT clause of the page-data statement for a `length` form value. -/
def limitClause (length : String) : String :=
  if length ≠ "-1" then " LIMIT :length OFFSET :start" else ""

/-- An optional sign followed by one or more decimal digits. -/
def isNumeral (s : String) : Bool :=
  match s.data with
  | [] => false
  | c :: cs =>
    let body := if c == '+' || c == '-' then cs else c :: cs
    !body.isEmpty && body.all Char.isDigit

/-- The number written by a run of decimal digits. -/
def decimalValue (l : List Char) : Nat :=
  l.foldl (fun n c => n * 10 + (c.toNat - 48)) 0

/-- The decimal digits that a text starts with, after its optional sign. -/
def leadingDigits (s : String) : List Char :=
  match s.data with
  | [] => []
  | c :: cs => (if c == '+' || c == '-' then cs else c :: cs).takeWhile Char.isDigit

/-- The columns `id`, `name`, `email` without overrides. -/
def idNameEmail : List Column :=
  [⟨"id", "", "", ""⟩, ⟨"name", "", "", ""⟩, ⟨"email", "", "", ""⟩]

/-- The display expression of a column: its `Display`, or its `Name` when blank. -/
def displayExpr (c : Column) : String :=
  if c.Display = "" then c.Name else c.Display

/-- The item of a column in the SELECT list: the null-to-empty-string wrapper around
the display expression without grouping, the bare display expression with grouping. -/
def selectItem (groupBy : String) (c : Column) : String :=
  if groupBy = "" then "IF(ISNULL(" ++ displayExpr c ++ "),\"\"," ++ displayExpr c ++ ")"
  else displayExpr c

/-- Items joined by `, `: a separator between neighbours, none leading or trailing. -/
def commaJoin : List String → String
  | [] => ""
  | [a] => a
  | a :: b :: rest => a ++ ", " ++ commaJoin (b :: rest)

/-- The SELECT list of the page-data statement. -/
def selectList (groupBy : String) (columns : List Column) : String :=
  commaJoin (columns.map (selectItem groupBy))

/-- The page-data statement up to the end of its ORDER BY clause, for the order
column `c`. -/
def orderedText (r : Request) (t additionalWhere groupBy : String) (columns : List Column)
    (c : Column) : String :=
  pageHead t groupBy columns ++ whereText additionalWhere groupBy columns ++
    pageGroup groupBy ++ " ORDER BY " ++ orderExpr c ++ " " ++ FormValue r "order[0][dir]"

/-- The coercion of one scanned value: the four recognised kinds are kept as they are,
every other kind gives nothing. -/
def coerce : Value → Option Cell
  | Value.bytes b => some (Cell.str b)
  | Value.int64 i => some (Cell.int64 i)
  | Value.float64 f => some (Cell.float64 f)
  | Value.time t => some (Cell.time t)
  | Value.null => none
  | Value.other _ => none

/-- The projected row of one row of the page-data result, `none` when its scan fails. -/
def projected (n : Nat) (row : DriverRow) : Option (List Cell) :=
  (Scan n row).map (fun vs => vs.filterMap coerce)

/-- A database that answers every query: the given rows for the two count queries and
the given answer for the page-data query. -/
def constDb (total filtered : List (Option Int)) (page : Option Rows) : Database :=
  { Query := fun _ => some total
    NamedQueryCount := fun _ _ => some filtered
    NamedQueryRows := fun _ _ => page }

/-- The columns of a grouped query: `department`, and `bonus` displayed as its maximum. -/
def departmentBonus : List Column :=
  [⟨"department", "", "", ""⟩, ⟨"bonus", "", "MAX(bonus)", ""⟩]

/-- A request for the first page, ordered by column 0. -/
def firstPage : Request :=
  ⟨[("draw", "5"), ("search[value]", ""), ("order[0][column]", "0"), ("order[0][dir]", "asc"),
    ("start", "0"), ("length", "10")]⟩

/-! ## Lemmas on the loops -/

theorem orJoin_cons (a : String) (l : List String) (h : l ≠ []) :
    orJoin (a :: l) = a ++ " OR " ++ orJoin l := by
  cases l with
  | nil => exact absurd rfl h
  | cons b rest => rfl

theorem intercalate_go_eq (l : List String) :
    ∀ acc : String, String.intercalate.go acc " OR " l =
      if l = [] then acc else acc ++ " OR " ++ orJoin l := by
  induction l with
  | nil => intro acc; simp [String.intercalate.go]
  | cons a rest ih =>
    intro acc
    rw [String.intercalate.go, ih]
    cases rest with
    | nil => simp [orJoin]
    | cons b rest2 => simp [orJoin, String.append_assoc]

theorem orJoin_eq_intercalate (l : List String) :
    orJoin l = String.intercalate " OR " l := by
  cases l with
  | nil => rfl
  | cons a rest =>
    rw [String.intercalate, intercalate_go_eq]
    cases rest with
    | nil => simp [orJoin]
    | cons b rest2 => simp [orJoin, String.append_assoc]

theorem searchLoop_eq (n : Nat) (cs : List Column) :
    ∀ (i : Nat) (a : Acc), i + cs.length = n →
      searchLoop n i cs a =
        { statement := a.statement ++ orJoin (cs.map likeTerm)
          countFiltered := a.countFiltered ++ orJoin (cs.map likeTerm) } := by
  induction cs with
  | nil => intro i a _; simp [searchLoop, orJoin]
  | cons c rest ih =>
    intro i a h
    have hlen : (i + 1) + rest.length = n := by simp at h; omega
    rw [searchLoop, ih (i + 1) _ hlen]
    cases rest with
    | nil =>
      have hn : i + 1 = n := by simpa using h
      by_cases hs : c.Search = "" <;>
        simp [hs, hn, orJoin, likeTerm, searchExpr, String.append_assoc]
    | cons d rest2 =>
      have hn : i + 1 ≠ n := by simp at h; omega
      by_cases hs : c.Search = "" <;>
        simp [hs, hn, orJoin, likeTerm, searchExpr, String.append_assoc]

theorem searchColumnsLoop_eq (groupBy : String) (cs : List Column) :
    ∀ acc : List Column,
      searchColumnsLoop groupBy cs acc = acc ++ cs.filter (eligible groupBy) := by
  induction cs with
  | nil => intro acc; simp [searchColumnsLoop]
  | cons c rest ih =>
    intro acc
    rw [searchColumnsLoop, ih]
    by_cases hg : groupBy = ""
    · simp [hg, eligible]
    · by_cases he : (Contains groupBy c.Name ||
          (Contains groupBy c.Search && c.Search != "")) = true
      · have : eligible groupBy c = true := by simp [eligible, hg]; simpa using he
        simp [hg, he, this]
      · have : eligible groupBy c = false := by
          simp [eligible, hg]; simpa using he
        simp [hg, he, this]

theorem searchColumns_eq_filter (groupBy : String) (columns : List Column) :
    searchColumns groupBy columns = columns.filter (eligible groupBy) := by
  simp [searchColumns, searchColumnsLoop_eq]

theorem whereSteps_eq (additionalWhere groupBy : String) (columns : List Column) (a : Acc) :
    whereSteps additionalWhere groupBy columns a =
      { statement := a.statement ++ whereText additionalWhere groupBy columns
        countFiltered := a.countFiltered ++ whereText additionalWhere groupBy columns } := by
  unfold whereSteps
  simp only []
  rw [searchLoop_eq _ _ 0 _ (by simp)]
  by_cases h : additionalWhere = "" <;>
    simp [openWhere, closeWhere, whereText, disjunction, h, String.append_assoc]

theorem searchColumns_nogroup (columns : List Column) : searchColumns "" columns = columns := by
  rw [searchColumns_eq_filter]
  simp [eligible]

theorem countFilteredQuery_eq (t additionalWhere groupBy : String) (columns : List Column) :
    countFilteredQuery t additionalWhere groupBy columns =
      countHead t groupBy ++ whereText additionalWhere groupBy columns ++ countTail groupBy := by
  by_cases h : groupBy = "" <;>
    simp [countFilteredQuery, buildAcc, whereSteps_eq, groupClause, fromAcc, initAcc, countHead,
      countTail, h, String.append_assoc]

theorem buildAcc_statement (t additionalWhere groupBy : String) (columns : List Column) :
    (buildAcc t additionalWhere groupBy columns).statement =
      pageHead t groupBy columns ++ whereText additionalWhere groupBy columns ++
        pageGroup groupBy := by
  by_cases h : groupBy = "" <;>
    simp [buildAcc, whereSteps_eq, groupClause, fromAcc, initAcc, pageHead, pageGroup, h,
      String.append_assoc]

theorem startsWithL_self (s : List Char) : startsWithL s s = true := by
  induction s with
  | nil => rfl
  | cons c rest ih => simp [startsWithL, ih]

theorem ContainsL_self (s : List Char) : ContainsL s s = true := by
  cases s with
  | nil => rfl
  | cons c rest => simp [ContainsL, startsWithL_self]

theorem Contains_self (s : String) : Contains s s = true :=
  ContainsL_self s.data

theorem isDigit_le (c : Char) (h : c.isDigit = true) : c.toNat - 48 ≤ 9 := by
  simp only [Char.isDigit, Bool.and_eq_true, decide_eq_true_eq] at h
  have h2 : c.val.toNat ≤ 57 := h.2
  show c.val.toNat - 48 ≤ 9
  omega

theorem ParseUintLoop_cons (c : Char) (cs : List Char) (n : Nat) :
    ParseUintLoop (c :: cs) n =
      if c.isDigit then
        (if 18446744073709551616 ≤ n * 10 + (c.toNat - 48) then UintResult.rangeError
          else ParseUintLoop cs (n * 10 + (c.toNat - 48)))
      else UintResult.syntaxError := by
  by_cases hc : c.isDigit = true
  · have hd := isDigit_le c hc
    rw [ParseUintLoop, if_pos hc, if_pos hc]
    simp only []
    by_cases h1 : 1844674407370955162 ≤ n
    · rw [if_pos h1, if_pos (by omega)]
    · rw [if_neg h1]
      by_cases h2 : 18446744073709551616 ≤ n * 10 + (c.toNat - 48)
      · rw [if_pos h2, if_pos (by omega)]
      · rw [if_neg h2, Nat.mod_eq_of_lt (by omega), if_neg (by omega)]
  · rw [ParseUintLoop, if_neg hc, if_neg hc]

theorem foldl_ge (l : List Char) :
    ∀ m : Nat, m ≤ l.foldl (fun n c => n * 10 + (c.toNat - 48)) m := by
  induction l with
  | nil => intro m; exact Nat.le_refl m
  | cons c rest ih =>
    intro m
    have := ih (m * 10 + (c.toNat - 48))
    simp only [List.foldl_cons]
    omega

theorem ParseUintLoop_digits (l : List Char) :
    ∀ m : Nat, l.all Char.isDigit = true →
      l.foldl (fun n c => n * 10 + (c.toNat - 48)) m < 18446744073709551616 →
      ParseUintLoop l m = UintResult.value (l.foldl (fun n c => n * 10 + (c.toNat - 48)) m) := by
  induction l with
  | nil => intro m _ _; rfl
  | cons c rest ih =>
    intro m hall hlt
    simp only [List.all_cons, Bool.and_eq_true] at hall
    simp only [List.foldl_cons] at hlt ⊢
    have hge := foldl_ge rest (m * 10 + (c.toNat - 48))
    rw [ParseUintLoop_cons, if_pos hall.1, if_neg (by omega), ih _ hall.2 hlt]

theorem ParseUintLoop_syntax (l : List Char) :
    ∀ m : Nat, l.all Char.isDigit = false →
      (l.takeWhile Char.isDigit).foldl (fun n c => n * 10 + (c.toNat - 48)) m
        < 18446744073709551616 →
      ParseUintLoop l m = UintResult.syntaxError := by
  induction l with
  | nil => intro m h _; simp at h
  | cons c rest ih =>
    intro m hall hlt
    by_cases hc : c.isDigit = true
    · have hr : rest.all Char.isDigit = false := by
        simpa [List.all_cons, hc] using hall
      simp only [List.takeWhile_cons, hc, if_true, List.foldl_cons] at hlt
      have hge := foldl_ge (rest.takeWhile Char.isDigit) (m * 10 + (c.toNat - 48))
      rw [ParseUintLoop_cons, if_pos hc, if_neg (by omega), ih _ hr hlt]
    · rw [ParseUintLoop_cons, if_neg hc]

theorem Atoi_of_not_numeral (s : String) (h : isNumeral s = false)
    (hv : decimalValue (leadingDigits s) < 2 ^ 64) : Atoi s = (0, false) := by
  unfold isNumeral at h
  unfold leadingDigits decimalValue at hv
  unfold Atoi
  cases hs : s.data with
  | nil => rfl
  | cons c cs =>
    rw [hs] at h hv
    simp only [] at h hv ⊢
    generalize (if (c == '+' || c == '-') = true then cs else c :: cs) = body at h hv ⊢
    cases body with
    | nil => rfl
    | cons d ds =>
      have hall : (d :: ds).all Char.isDigit = false := by simpa using h
      have hv2 : ((d :: ds).takeWhile Char.isDigit).foldl
          (fun n c => n * 10 + (c.toNat - 48)) 0 < 18446744073709551616 := by
        have : (2 : Nat) ^ 64 = 18446744073709551616 := by norm_num
        omega
      simp only [ParseUint, ParseUintLoop_syntax _ 0 hall hv2]

theorem index_natCast (columns : List Column) (i : Nat) :
    index columns (i : Int) = columns.get? i := by
  simp [index]

theorem orderLimit_of_index (r : Request) (columns : List Column) (statement : String)
    (c : Column) (h : index columns (Atoi (FormValue r "order[0][column]")).1 = some c) :
    orderLimit r columns statement =
      some (statement ++ " ORDER BY " ++ orderExpr c ++ " " ++ FormValue r "order[0][dir]" ++
        limitClause (FormValue r "length")) := by
  unfold orderLimit
  simp only [h]
  by_cases hl : FormValue r "length" = "-1" <;>
    simp [hl, limitClause, orderExpr, String.append_assoc]

theorem intercalate_comma_go_eq (l : List String) :
    ∀ acc : String, String.intercalate.go acc ", " l =
      if l = [] then acc else acc ++ ", " ++ commaJoin l := by
  induction l with
  | nil => intro acc; simp [String.intercalate.go]
  | cons a rest ih =>
    intro acc
    rw [String.intercalate.go, ih]
    cases rest with
    | nil => simp [commaJoin]
    | cons b rest2 => simp [commaJoin, String.append_assoc]

theorem commaJoin_eq_intercalate (l : List String) :
    commaJoin l = String.intercalate ", " l := by
  cases l with
  | nil => rfl
  | cons a rest =>
    rw [String.intercalate, intercalate_comma_go_eq]
    cases rest with
    | nil => simp [commaJoin]
    | cons b rest2 => simp [commaJoin, String.append_assoc]

theorem selectLoop_eq (groupBy : String) (n : Nat) (cs : List Column) :
    ∀ (i : Nat) (statement : String), i + cs.length = n →
      selectLoop groupBy n i cs statement =
        statement ++ commaJoin (cs.map (selectItem groupBy)) := by
  induction cs with
  | nil => intro i statement _; simp [selectLoop, commaJoin]
  | cons c rest ih =>
    intro i statement h
    have hlen : (i + 1) + rest.length = n := by simp at h; omega
    rw [selectLoop, ih (i + 1) _ hlen]
    cases rest with
    | nil =>
      have hn : i + 1 = n := by simpa using h
      by_cases hg : groupBy = "" <;> by_cases hd : c.Display = "" <;>
        simp [hg, hd, hn, commaJoin, selectItem, displayExpr, String.append_assoc]
    | cons d rest2 =>
      have hn : i + 1 ≠ n := by simp at h; omega
      by_cases hg : groupBy = "" <;> by_cases hd : c.Display = "" <;>
        simp [hg, hd, hn, commaJoin, selectItem, displayExpr, String.append_assoc]

theorem pageHead_eq (t groupBy : String) (columns : List Column) :
    pageHead t groupBy columns =
      "SELECT " ++ selectList groupBy columns ++ " FROM " ++ t ++ " WHERE " := by
  unfold pageHead selectList
  rw [selectLoop_eq groupBy _ columns 0 _ (by simp)]

theorem pageStatement_eq_map (r : Request) (t additionalWhere groupBy : String)
    (columns : List Column) :
    pageStatement r t additionalWhere groupBy columns =
      (index columns (Atoi (FormValue r "order[0][column]")).1).map (fun c =>
        orderedText r t additionalWhere groupBy columns c ++
          limitClause (FormValue r "length")) := by
  unfold pageStatement
  cases h : index columns (Atoi (FormValue r "order[0][column]")).1 with
  | none => simp [orderLimit, h]
  | some c => rw [orderLimit_of_index _ _ _ c h, buildAcc_statement]; rfl

theorem append_ne_self (a x : String) (hx : x ≠ "") : a ++ x ≠ a := by
  intro h
  apply hx
  have hd : a.data ++ x.data = a.data ++ [] := by
    simpa using congrArg String.data h
  exact String.ext (List.append_cancel_left hd)

theorem startsWithL_iff (s : List Char) : ∀ p : List Char, startsWithL s p = true ↔ p <+: s := by
  induction s with
  | nil =>
    intro p
    cases p with
    | nil => simp [startsWithL]
    | cons b p2 => simp [startsWithL]
  | cons a s2 ih =>
    intro p
    cases p with
    | nil => simp [startsWithL]
    | cons b p2 =>
      simp only [startsWithL, Bool.and_eq_true, beq_iff_eq, ih, List.cons_prefix_cons]
      constructor
      · rintro ⟨h1, h2⟩; exact ⟨h1.symm, h2⟩
      · rintro ⟨h1, h2⟩; exact ⟨h1.symm, h2⟩

theorem ContainsL_iff (s sub : List Char) : ContainsL s sub = true ↔ sub <:+: s := by
  induction s with
  | nil => cases sub <;> simp [ContainsL]
  | cons a s2 ih =>
    simp only [ContainsL, Bool.or_eq_true, startsWithL_iff, ih, List.infix_cons_iff]

theorem Contains_iff (s substr : String) :
    Contains s substr = true ↔ substr.data <:+: s.data :=
  ContainsL_iff s.data substr.data

theorem projectLoop_eq (vs : List Value) :
    ∀ m : List Cell, projectLoop vs m = m ++ vs.filterMap coerce := by
  induction vs with
  | nil => intro m; simp [projectLoop]
  | cons v rest ih =>
    intro m
    cases v <;> simp [projectLoop, ih, coerce]

theorem rowsLoop_eq (n : Nat) (rows : List DriverRow) :
    ∀ result : List (List Cell),
      rowsLoop n rows result = result ++ rows.filterMap (projected n) := by
  induction rows with
  | nil => intro result; simp [rowsLoop]
  | cons row rest ih =>
    intro result
    rw [rowsLoop]
    cases h : Scan n row with
    | none => simp [ih, projected, h]
    | some vs => simp [ih, projected, h, projectLoop_eq]

theorem DataTables_response (db : Database) (r : Request)
    (t additionalWhere groupBy : String) (columns : List Column)
    (arows rows : List (Option Int)) (total filtered : Int) (statement : String)
    (prows : Rows)
    (hq : db.Query (totalQuery t additionalWhere groupBy) = some arows)
    (ht : countLoop arows 0 = some total)
    (hn : db.NamedQueryCount (countFilteredQuery t additionalWhere groupBy columns)
      (countFilteredArgs r) = some rows)
    (hf : countLoop rows 0 = some filtered)
    (hs : pageStatement r t additionalWhere groupBy columns = some statement)
    (hp : db.NamedQueryRows statement (pageArgs r) = some prows) :
    DataTables db r t additionalWhere groupBy columns =
      Outcome.response (respond r total filtered
        (prows.next.filterMap (projected prows.Columns.length))) := by
  simp [DataTables, hq, ht, hn, hf, hs, pageRows, hp, rowsLoop_eq]

theorem toNat?_data (s : String) (n : Nat) (h : s.toNat? = some n) :
    s.data ≠ [] ∧ s.data.all Char.isDigit = true ∧ decimalValue s.data = n := by
  unfold String.toNat? at h
  by_cases hn : s.isNat = true
  · rw [if_pos hn] at h
    have hn2 := hn
    unfold String.isNat at hn2
    simp only [Bool.and_eq_true, Bool.not_eq_true', String.all_eq] at hn2
    have hall : s.data.all Char.isDigit = true := by simpa using hn2.2
    refine ⟨?_, hall, ?_⟩
    · intro hd
      have hs : s = "" := String.ext hd
      rw [hs] at hn2
      exact absurd hn2.1 (by decide)
    · have h2 : s.foldl (fun n c => n * 10 + (c.toNat - '0'.toNat)) 0 = n := by
        simpa using h
      rw [String.foldl_eq] at h2
      exact h2
  · rw [if_neg hn] at h
    exact absurd h (by simp)

theorem ParseUint_of_toNat (s : String) (n : Nat) (h : s.toNat? = some n)
    (hn : n < 18446744073709551616) : ParseUint s.data = UintResult.value n := by
  obtain ⟨hne, hall, hv⟩ := toNat?_data s n h
  unfold decimalValue at hv
  cases hs : s.data with
  | nil => exact absurd hs hne
  | cons c cs =>
    rw [hs] at hall hv
    rw [ParseUint, ParseUintLoop_digits _ 0 hall (by omega), hv]

theorem head_not_sign (s : String) (n : Nat) (h : s.toNat? = some n) (c : Char)
    (cs : List Char) (hs : s.data = c :: cs) : c ≠ '+' ∧ c ≠ '-' := by
  obtain ⟨_, hall, _⟩ := toNat?_data s n h
  rw [hs] at hall
  have hc : c.isDigit = true := by
    have := hall; simp only [List.all_cons, Bool.and_eq_true] at this; exact this.1
  constructor
  · intro hc2; rw [hc2] at hc; exact absurd hc (by decide)
  · intro hc2; rw [hc2] at hc; exact absurd hc (by decide)

theorem Atoi_of_toNat (s : String) (n : Nat) (h : s.toNat? = some n) (hn : n < 2 ^ 63) :
    Atoi s = ((n : Int), true) := by
  have h63 : (2 : Nat) ^ 63 = 9223372036854775808 := by norm_num
  have hp := ParseUint_of_toNat s n h (by omega)
  obtain ⟨hne, _, _⟩ := toNat?_data s n h
  unfold Atoi
  cases hs : s.data with
  | nil => exact absurd hs hne
  | cons c cs =>
    obtain ⟨h1, h2⟩ := head_not_sign s n h c cs hs
    rw [hs] at hp
    have hn2 : ¬ (9223372036854775808 ≤ n) := by omega
    simp [h1, h2, hp, hn2]

theorem Atoi_plus_of_toNat (s : String) (n : Nat) (h : s.toNat? = some n)
    (hn : n < 2 ^ 63) : Atoi ("+" ++ s) = ((n : Int), true) := by
  have h63 : (2 : Nat) ^ 63 = 9223372036854775808 := by norm_num
  have hp := ParseUint_of_toNat s n h (by omega)
  have hd : ("+" ++ s).data = '+' :: s.data := by simp
  have hn2 : ¬ (9223372036854775808 ≤ n) := by omega
  unfold Atoi
  rw [hd]
  simp [hp, hn2]

theorem Atoi_minus_of_toNat (s : String) (n : Nat) (h : s.toNat? = some n)
    (hn : n ≤ 2 ^ 63) : Atoi ("-" ++ s) = (-(n : Int), true) := by
  have h63 : (2 : Nat) ^ 63 = 9223372036854775808 := by norm_num
  have hp := ParseUint_of_toNat s n h (by omega)
  have hd : ("-" ++ s).data = '-' :: s.data := by simp
  have hn2 : n ≤ 9223372036854775808 := by omega
  unfold Atoi
  rw [hd]
  simp [hp, hn2]

theorem pageStatement_of_sel (r : Request) (t additionalWhere groupBy : String)
    (columns : List Column) (i : Nat) (c : Column) (hi : columns.get? i = some c)
    (hsel : (Atoi (FormValue r "order[0][column]")).1 = (i : Int) ∨
      (isNumeral (FormValue r "order[0][column]") = false ∧
        decimalValue (leadingDigits (FormValue r "order[0][column]")) < 2 ^ 64 ∧ i = 0) ∨
      (r.Form.lookup "order[0][column]" = none ∧ i = 0)) :
    pageStatement r t additionalWhere groupBy columns =
      some (orderedText r t additionalWhere groupBy columns c ++
        limitClause (FormValue r "length")) := by
  have hidx : (Atoi (FormValue r "order[0][column]")).1 = (i : Int) := by
    rcases hsel with h | ⟨h, hv, h0⟩ | ⟨h, h0⟩
    · exact h
    · rw [Atoi_of_not_numeral _ h hv, h0]; rfl
    · have hv : FormValue r "order[0][column]" = "" := by simp [FormValue, h]
      rw [hv, h0]; rfl
  rw [pageStatement_eq_map, hidx, index_natCast, hi]
  rfl

/-! ## Claims -/

/-- C1: with no grouping and no additional filter, the filtered-count statement for a
non-empty column list is `SELECT COUNT(*) FROM t WHERE ` followed by one LIKE term per
column, in column order, joined by ` OR ` (as many terms as columns, the separator only
between neighbours). -/
theorem countFiltered_one_term_per_column (t : String) (columns : List Column)
    (_hne : columns ≠ []) :
    countFilteredQuery t "" "" columns =
        "SELECT COUNT(*) FROM " ++ t ++ " WHERE " ++ orJoin (columns.map likeTerm) ∧
      orJoin (columns.map likeTerm) = String.intercalate " OR " (columns.map likeTerm) ∧
      (columns.map likeTerm).length = columns.length ∧
      ∀ c : Column, likeTerm c =
        (if c.Search ≠ "" then c.Search else c.Name) ++ " LIKE CONCAT('%', :search, '%')" := by
  refine ⟨?_, orJoin_eq_intercalate _, List.length_map _ _, fun c => ?_⟩
  · simp [countFilteredQuery, buildAcc, whereSteps_eq, groupClause, fromAcc, initAcc, whereText,
      disjunction, searchColumns_nogroup]
  · by_cases h : c.Search = "" <;> simp [likeTerm, searchExpr, h]

theorem countFiltered_one_term_per_column_witness :
    idNameEmail ≠ [] ∧
    countFilteredQuery "users" "" "" idNameEmail =
      "SELECT COUNT(*) FROM " ++ "users" ++ " WHERE " ++ orJoin (idNameEmail.map likeTerm) :=
  ⟨by decide, (countFiltered_one_term_per_column "users" idNameEmail (by decide)).1⟩

/-- C2 (counterexample): for the columns `id`, `name`, `email` with no grouping and no
additional filter, the WHERE clause of the filtered-count statement is the bare
disjunction; it is not the disjunction enclosed in parentheses. -/
theorem disjunction_bare_without_filter :
    countFilteredQuery "users" "" "" idNameEmail =
        "SELECT COUNT(*) FROM users WHERE id LIKE CONCAT('%', :search, '%') OR name LIKE CONCAT('%', :search, '%') OR email LIKE CONCAT('%', :search, '%')" ∧
      countFilteredQuery "users" "" "" idNameEmail ≠
        "SELECT COUNT(*) FROM users WHERE (id LIKE CONCAT('%', :search, '%') OR name LIKE CONCAT('%', :search, '%') OR email LIKE CONCAT('%', :search, '%'))" := by
  decide

/-- C2 (amended): with at least one search-eligible column, the disjunction is enclosed
in its own parentheses when an additional filter is given, the WHERE condition being
`(filter) AND (disjunction)` in both the filtered-count and the page-data statement;
without a filter the WHERE condition is the bare disjunction in both. -/
theorem disjunction_parenthesised_with_filter (t additionalWhere groupBy : String)
    (columns : List Column) (_hsome : searchColumns groupBy columns ≠ []) :
    (additionalWhere ≠ "" →
      countFilteredQuery t additionalWhere groupBy columns =
          countHead t groupBy ++ "(" ++ additionalWhere ++ ") AND (" ++
            disjunction groupBy columns ++ ")" ++ countTail groupBy ∧
        (buildAcc t additionalWhere groupBy columns).statement =
          pageHead t groupBy columns ++ "(" ++ additionalWhere ++ ") AND (" ++
            disjunction groupBy columns ++ ")" ++ pageGroup groupBy) ∧
    countFilteredQuery t "" groupBy columns =
      countHead t groupBy ++ disjunction groupBy columns ++ countTail groupBy ∧
    (buildAcc t "" groupBy columns).statement =
      pageHead t groupBy columns ++ disjunction groupBy columns ++ pageGroup groupBy := by
  refine ⟨fun h => ⟨?_, ?_⟩, ?_, ?_⟩
  · rw [countFilteredQuery_eq]; simp [whereText, h, String.append_assoc]
  · rw [buildAcc_statement]; simp [whereText, h, String.append_assoc]
  · rw [countFilteredQuery_eq]; simp [whereText]
  · rw [buildAcc_statement]; simp [whereText]

theorem disjunction_parenthesised_with_filter_witness :
    searchColumns "" idNameEmail ≠ [] ∧ "active = 1" ≠ "" ∧
      countFilteredQuery "users" "active = 1" "" idNameEmail =
        "SELECT COUNT(*) FROM users WHERE (active = 1) AND (id LIKE CONCAT('%', :search, '%') OR name LIKE CONCAT('%', :search, '%') OR email LIKE CONCAT('%', :search, '%'))" :=
  ⟨by decide, by decide,
    ((disjunction_parenthesised_with_filter "users" "active = 1" "" idNameEmail
      (by decide)).1 (by decide)).1.trans (by decide)⟩

/-- C3 (counterexample): for the columns `id` and `paid` (names non-empty) and the
grouping expression `paid`, which is the name of exactly one column, the search-eligible
columns are both `id` and `paid`, because `id` occurs inside `paid`. -/
theorem searchColumns_name_inside_group :
    (∀ d ∈ [Column.mk "id" "" "" "", Column.mk "paid" "" "" ""], d.Name ≠ "") ∧
      [Column.mk "id" "" "" "", Column.mk "paid" "" "" ""].filter
          (fun d => decide (d.Name = "paid")) = [Column.mk "paid" "" "" ""] ∧
      searchColumns "paid" [Column.mk "id" "" "" "", Column.mk "paid" "" "" ""] =
        [Column.mk "id" "" "" "", Column.mk "paid" "" "" ""] ∧
      searchColumns "paid" [Column.mk "id" "" "" "", Column.mk "paid" "" "" ""] ≠
        [Column.mk "paid" "" "" ""] := by
  decide

/-- C3 (amended): when all names are non-empty and the grouping expression is the name
of exactly one column `c`, the search-eligible columns contain `c`; they are exactly
`c` when no other column has its name, or its non-empty search expression, occurring
inside the grouping expression. -/
theorem searchColumns_of_group_name (groupBy : String) (columns : List Column) (c : Column)
    (hnames : ∀ d ∈ columns, d.Name ≠ "")
    (hone : columns.filter (fun d => decide (d.Name = groupBy)) = [c]) :
    c ∈ searchColumns groupBy columns ∧
      ((∀ d ∈ columns, d.Name ≠ groupBy →
          Contains groupBy d.Name = false ∧
            (Contains groupBy d.Search = false ∨ d.Search = "")) →
        searchColumns groupBy columns = [c]) := by
  have hc : c ∈ columns.filter (fun d => decide (d.Name = groupBy)) := by simp [hone]
  have hcmem : c ∈ columns := (List.mem_filter.mp hc).1
  have hcname : c.Name = groupBy := by simpa using (List.mem_filter.mp hc).2
  have hg : groupBy ≠ "" := hcname ▸ hnames c hcmem
  refine ⟨?_, fun hother => ?_⟩
  · rw [searchColumns_eq_filter]
    refine List.mem_filter.mpr ⟨hcmem, ?_⟩
    simp [eligible, hcname, Contains_self]
  · rw [searchColumns_eq_filter, ← hone]
    apply List.filter_congr
    intro d hd
    by_cases hdn : d.Name = groupBy
    · simp [eligible, hdn, Contains_self]
    · obtain ⟨h1, h2⟩ := hother d hd hdn
      rcases h2 with h2 | h2 <;> simp [eligible, hdn, hg, h1, h2]

theorem searchColumns_of_group_name_witness :
    (∀ d ∈ [Column.mk "id" "" "" "", Column.mk "department" "" "" "",
        Column.mk "salary" "" "" ""], d.Name ≠ "") ∧
      searchColumns "department" [Column.mk "id" "" "" "", Column.mk "department" "" "" "",
        Column.mk "salary" "" "" ""] = [Column.mk "department" "" "" ""] :=
  ⟨by decide,
    (searchColumns_of_group_name "department"
      [Column.mk "id" "" "" "", Column.mk "department" "" "" "", Column.mk "salary" "" "" ""]
      (Column.mk "department" "" "" "") (by decide) (by decide)).2 (by decide)⟩

/-- C4 (the code at the failing input): with the grouping expression `department` and
the single column `id` no column is search-eligible; the filtered-count statement then
holds the empty group `()` after a dangling ` AND ` when a filter is given, and `WHERE `
directly followed by ` GROUP BY` when none is given. -/
theorem empty_disjunction_text :
    searchColumns "department" [Column.mk "id" "" "" ""] = [] ∧
      countFilteredQuery "person" "active = 1" "department" [Column.mk "id" "" "" ""] =
        "SELECT COUNT(*) FROM (SELECT COUNT(*) FROM person WHERE (active = 1) AND () GROUP BY department) AS count_table" ∧
      (buildAcc "person" "active = 1" "department" [Column.mk "id" "" "" ""]).statement =
        "SELECT id FROM person WHERE (active = 1) AND () GROUP BY department" ∧
      countFilteredQuery "person" "" "department" [Column.mk "id" "" "" ""] =
        "SELECT COUNT(*) FROM (SELECT COUNT(*) FROM person WHERE  GROUP BY department) AS count_table" := by
  decide

/-- C5 (the code at the failing input): with three columns and `order[0][column]` equal
to `3` (or `-1`, or any index with an empty column list) no guard precedes the lookup
`columns[orderColumnNumber]`, which is reached and indexes out of bounds: the lookup
panics and no page-data statement is produced. -/
theorem order_index_unguarded :
    (Atoi "3").1 = 3 ∧ index idNameEmail 3 = none ∧
      pageStatement ⟨[("order[0][column]", "3"), ("order[0][dir]", "asc")]⟩
        "users" "" "" idNameEmail = none ∧
      pageStatement ⟨[("order[0][column]", "-1"), ("order[0][dir]", "asc")]⟩
        "users" "" "" idNameEmail = none ∧
      pageStatement ⟨[("order[0][column]", "0"), ("order[0][dir]", "asc")]⟩
        "users" "" "" [] = none := by
  decide

/-- C6 (the code at the failing input): with the filter `active = 1` and the grouping
expression `department` the total-count statement puts ` GROUP BY ` before ` WHERE `
inside the subquery, whereas the filtered-count statement for the same input puts its
WHERE clause before ` GROUP BY `. -/
theorem total_group_before_where :
    totalQuery "person" "active = 1" "department" =
        "SELECT COUNT(*) FROM (SELECT COUNT(*) FROM person GROUP BY department WHERE active = 1) AS count_table" ∧
      totalQuery "person" "active = 1" "department" ≠
        "SELECT COUNT(*) FROM (SELECT COUNT(*) FROM " ++ "person" ++ " WHERE " ++ "active = 1" ++
          " GROUP BY " ++ "department" ++ ") AS count_table" ∧
      countFilteredQuery "person" "active = 1" "department" [Column.mk "department" "" "" ""] =
        "SELECT COUNT(*) FROM (SELECT COUNT(*) FROM person WHERE (active = 1) AND (department LIKE CONCAT('%', :search, '%')) GROUP BY department) AS count_table" := by
  decide

/-- C7: the total-count statement of a call is `SELECT COUNT(*) FROM t` with no grouping
and no filter, that text followed by ` WHERE filter` with a filter only, and the wrapped
form with ` GROUP BY groupBy` with a grouping expression only, whatever the request and
the columns. -/
theorem total_count_text (r : Request) (t additionalWhere groupBy : String)
    (columns : List Column) :
    (queries r t "" "" columns).total = "SELECT COUNT(*) FROM " ++ t ∧
      (additionalWhere ≠ "" →
        (queries r t additionalWhere "" columns).total =
          "SELECT COUNT(*) FROM " ++ t ++ " WHERE " ++ additionalWhere) ∧
      (groupBy ≠ "" →
        (queries r t "" groupBy columns).total =
          "SELECT COUNT(*) FROM (SELECT COUNT(*) FROM " ++ t ++ " GROUP BY " ++ groupBy ++
            ") AS count_table") ∧
      (∀ (r₂ : Request) (columns₂ : List Column),
        (queries r t additionalWhere groupBy columns).total =
          (queries r₂ t additionalWhere groupBy columns₂).total) := by
  refine ⟨?_, fun h => ?_, fun h => ?_, fun _ _ => rfl⟩
  · simp [queries, totalQuery]
  · simp [queries, totalQuery, h, String.append_assoc]
  · simp [queries, totalQuery, h, String.append_assoc]

theorem total_count_text_witness :
    "active = 1" ≠ "" ∧ "department" ≠ "" ∧
      (queries ⟨[("draw", "5")]⟩ "person" "active = 1" "" idNameEmail).total =
        "SELECT COUNT(*) FROM person WHERE active = 1" ∧
      (queries ⟨[("draw", "5")]⟩ "person" "" "department" idNameEmail).total =
        "SELECT COUNT(*) FROM (SELECT COUNT(*) FROM person GROUP BY department) AS count_table" :=
  ⟨by decide, by decide,
    ((total_count_text ⟨[("draw", "5")]⟩ "person" "active = 1" "department" idNameEmail).2.1
      (by decide)).trans (by decide),
    ((total_count_text ⟨[("draw", "5")]⟩ "person" "active = 1" "department" idNameEmail).2.2.1
      (by decide)).trans (by decide)⟩

/-- C8: the same WHERE condition `whereText` stands in the filtered-count statement,
between its head ending in ` WHERE ` and its tail (the GROUP BY clause or the end), and
in the page-data statement, between its head ending in ` WHERE ` and the GROUP BY or
ORDER BY clause that follows. -/
theorem page_where_same_as_count (r : Request) (t additionalWhere groupBy : String)
    (columns : List Column) :
    (queries r t additionalWhere groupBy columns).countFiltered =
        countHead t groupBy ++ whereText additionalWhere groupBy columns ++
          countTail groupBy ∧
      (buildAcc t additionalWhere groupBy columns).statement =
        pageHead t groupBy columns ++ whereText additionalWhere groupBy columns ++
          pageGroup groupBy ∧
      (queries r t additionalWhere groupBy columns).statement =
        (index columns (Atoi (FormValue r "order[0][column]")).1).map (fun c =>
          pageHead t groupBy columns ++ whereText additionalWhere groupBy columns ++
            pageGroup groupBy ++ " ORDER BY " ++ orderExpr c ++ " " ++
            FormValue r "order[0][dir]" ++ limitClause (FormValue r "length")) := by
  refine ⟨countFilteredQuery_eq _ _ _ _, buildAcc_statement _ _ _ _, ?_⟩
  show pageStatement r t additionalWhere groupBy columns = _
  unfold pageStatement
  cases h : index columns (Atoi (FormValue r "order[0][column]")).1 with
  | none => simp [orderLimit, h]
  | some c => rw [orderLimit_of_index _ _ _ c h, buildAcc_statement]; rfl

/-- C9: two requests that agree on `order[0][column]`, on `order[0][dir]` and on whether
`length` is `-1` yield the same three SQL texts, however their `search[value]`, `start`
and `length` differ; those values are passed as the named arguments `search`, `length`
and `start`. -/
theorem texts_independent_of_bound_values (r₁ r₂ : Request)
    (t additionalWhere groupBy : String) (columns : List Column)
    (hcol : FormValue r₁ "order[0][column]" = FormValue r₂ "order[0][column]")
    (hdir : FormValue r₁ "order[0][dir]" = FormValue r₂ "order[0][dir]")
    (hlen : FormValue r₁ "length" = "-1" ↔ FormValue r₂ "length" = "-1") :
    (queries r₁ t additionalWhere groupBy columns).total =
        (queries r₂ t additionalWhere groupBy columns).total ∧
      (queries r₁ t additionalWhere groupBy columns).countFiltered =
        (queries r₂ t additionalWhere groupBy columns).countFiltered ∧
      (queries r₁ t additionalWhere groupBy columns).statement =
        (queries r₂ t additionalWhere groupBy columns).statement ∧
      (queries r₁ t additionalWhere groupBy columns).countFilteredArgs =
        [("search", FormValue r₁ "search[value]")] ∧
      (queries r₁ t additionalWhere groupBy columns).statementArgs =
        [("search", FormValue r₁ "search[value]"), ("length", FormValue r₁ "length"),
          ("start", FormValue r₁ "start")] := by
  refine ⟨rfl, rfl, ?_, rfl, rfl⟩
  show pageStatement r₁ t additionalWhere groupBy columns =
    pageStatement r₂ t additionalWhere groupBy columns
  unfold pageStatement orderLimit
  rw [hcol, hdir]
  by_cases h1 : FormValue r₁ "length" = "-1"
  · have h2 := hlen.mp h1
    simp [h1, h2]
  · have h2 : ¬ FormValue r₂ "length" = "-1" := fun h => h1 (hlen.mpr h)
    simp [h1, h2]

theorem texts_independent_of_bound_values_witness :
    (queries ⟨[("search[value]", "al"), ("order[0][column]", "1"), ("order[0][dir]", "desc"),
          ("start", "0"), ("length", "10")]⟩ "users" "" "" idNameEmail).statement =
      (queries ⟨[("search[value]", "%; DROP TABLE users"), ("order[0][column]", "1"),
          ("order[0][dir]", "desc"), ("start", "40"), ("length", "25")]⟩
        "users" "" "" idNameEmail).statement :=
  (texts_independent_of_bound_values
    ⟨[("search[value]", "al"), ("order[0][column]", "1"), ("order[0][dir]", "desc"),
      ("start", "0"), ("length", "10")]⟩
    ⟨[("search[value]", "%; DROP TABLE users"), ("order[0][column]", "1"),
      ("order[0][dir]", "desc"), ("start", "40"), ("length", "25")]⟩
    "users" "" "" idNameEmail (by decide) (by decide) (by decide)).2.2.1

/-- C10 (counterexample): the value `99999999999999999999x` of `order[0][column]` is
not a numeral, yet `Atoi` returns the upper bound of the `int` range for it, the digits
overflowing before the letter is read; the lookup of the order column then panics and
no page-data statement selecting column 0 is produced. -/
theorem order_column_digits_overflow :
    isNumeral "99999999999999999999x" = false ∧
      Atoi "99999999999999999999x" = (9223372036854775807, false) ∧
      pageStatement ⟨[("order[0][column]", "99999999999999999999x"),
          ("order[0][dir]", "asc"), ("length", "10")]⟩ "users" "" "" idNameEmail = none := by
  decide

/-- C10 (amended): when `order[0][column]` parses to the in-range index `i`, or is
missing, or is not a numeral and its leading digits stay below `2 ^ 64`, `i` being 0,
the page-data statement is the text up to the GROUP BY clause followed by
` ORDER BY e dir` and then the LIMIT clause, if any, where `e` is the `Order` of column
`i`, or its `Name` when blank, and `dir` is the `order[0][dir]` form value as given. -/
theorem order_by_clause (r : Request) (t additionalWhere groupBy : String)
    (columns : List Column) (i : Nat) (c : Column) (hi : columns.get? i = some c)
    (hsel : (Atoi (FormValue r "order[0][column]")).1 = (i : Int) ∨
      (isNumeral (FormValue r "order[0][column]") = false ∧
        decimalValue (leadingDigits (FormValue r "order[0][column]")) < 2 ^ 64 ∧ i = 0) ∨
      (r.Form.lookup "order[0][column]" = none ∧ i = 0)) :
    pageStatement r t additionalWhere groupBy columns =
      some (pageHead t groupBy columns ++ whereText additionalWhere groupBy columns ++
        pageGroup groupBy ++ " ORDER BY " ++ (if c.Order = "" then c.Name else c.Order) ++
        " " ++ FormValue r "order[0][dir]" ++
        (if FormValue r "length" = "-1" then "" else " LIMIT :length OFFSET :start")) := by
  have hidx : (Atoi (FormValue r "order[0][column]")).1 = (i : Int) := by
    rcases hsel with h | ⟨h, hv, h0⟩ | ⟨h, h0⟩
    · exact h
    · rw [Atoi_of_not_numeral _ h hv, h0]; rfl
    · have hv : FormValue r "order[0][column]" = "" := by simp [FormValue, h]
      rw [hv, h0]; rfl
  have hc : index columns (Atoi (FormValue r "order[0][column]")).1 = some c := by
    rw [hidx, index_natCast, hi]
  unfold pageStatement
  rw [orderLimit_of_index _ _ _ c hc, buildAcc_statement]
  by_cases hl : FormValue r "length" = "-1" <;> simp [orderExpr, limitClause, hl]

theorem order_by_clause_witness :
    idNameEmail.get? 1 = some (Column.mk "name" "" "" "") ∧
      pageStatement ⟨[("search[value]", "al"), ("order[0][column]", "1"),
          ("order[0][dir]", "desc"), ("start", "0"), ("length", "10"), ("draw", "5")]⟩
        "users" "" "" idNameEmail =
      some "SELECT IF(ISNULL(id),\"\",id), IF(ISNULL(name),\"\",name), IF(ISNULL(email),\"\",email) FROM users WHERE id LIKE CONCAT('%', :search, '%') OR name LIKE CONCAT('%', :search, '%') OR email LIKE CONCAT('%', :search, '%') ORDER BY name desc LIMIT :length OFFSET :start" :=
  ⟨by decide,
    (order_by_clause ⟨[("search[value]", "al"), ("order[0][column]", "1"),
        ("order[0][dir]", "desc"), ("start", "0"), ("length", "10"), ("draw", "5")]⟩
      "users" "" "" idNameEmail 1 (Column.mk "name" "" "" "") (by decide)
      (Or.inl (by decide))).trans rfl⟩

/-- C11 (counterexample): with `length` equal to `-1` and the `order[0][dir]` value
`asc LIMIT :length OFFSET :start`, the page-data statement ends with
` LIMIT :length OFFSET :start`, the direction being copied as given. -/
theorem limit_text_from_direction :
    FormValue ⟨[("order[0][column]", "0"), ("order[0][dir]", "asc LIMIT :length OFFSET :start"),
        ("length", "-1")]⟩ "length" = "-1" ∧
      pageStatement ⟨[("order[0][column]", "0"),
          ("order[0][dir]", "asc LIMIT :length OFFSET :start"), ("length", "-1")]⟩
          "users" "" "" idNameEmail =
        some ("SELECT IF(ISNULL(id),\"\",id), IF(ISNULL(name),\"\",name), IF(ISNULL(email),\"\",email) FROM users WHERE id LIKE CONCAT('%', :search, '%') OR name LIKE CONCAT('%', :search, '%') OR email LIKE CONCAT('%', :search, '%') ORDER BY id asc" ++
          " LIMIT :length OFFSET :start") := by
  refine ⟨by decide, rfl⟩

/-- C11 (amended): when the order column exists, the page-data statement is the text up
to the end of its ORDER BY clause followed by ` LIMIT :length OFFSET :start` if and only
if the `length` form value is not `-1`, and that text alone if and only if `length` is
`-1`; hence, when that text does not itself end with ` LIMIT :length OFFSET :start`,
the statement ends with it if and only if `length` is not `-1`. -/
theorem limit_clause_iff (r : Request) (t additionalWhere groupBy : String)
    (columns : List Column) (c : Column)
    (hc : index columns (Atoi (FormValue r "order[0][column]")).1 = some c) :
    (pageStatement r t additionalWhere groupBy columns =
        some (orderedText r t additionalWhere groupBy columns c ++
          " LIMIT :length OFFSET :start") ↔ FormValue r "length" ≠ "-1") ∧
      (pageStatement r t additionalWhere groupBy columns =
        some (orderedText r t additionalWhere groupBy columns c) ↔
          FormValue r "length" = "-1") ∧
      orderedText r t additionalWhere groupBy columns c =
        (buildAcc t additionalWhere groupBy columns).statement ++ " ORDER BY " ++
          (if c.Order = "" then c.Name else c.Order) ++ " " ++ FormValue r "order[0][dir]" ∧
      (¬ " LIMIT :length OFFSET :start".data <:+
          (orderedText r t additionalWhere groupBy columns c).data →
        ∃ statement : String,
          pageStatement r t additionalWhere groupBy columns = some statement ∧
            (" LIMIT :length OFFSET :start".data <:+ statement.data ↔
              FormValue r "length" ≠ "-1")) := by
  have hne : orderedText r t additionalWhere groupBy columns c ++
      " LIMIT :length OFFSET :start" ≠ orderedText r t additionalWhere groupBy columns c :=
    append_ne_self _ _ (by decide)
  rw [pageStatement_eq_map, hc]
  refine ⟨?_, ?_, ?_, ?_⟩
  · by_cases hl : FormValue r "length" = "-1"
    · simp [limitClause, hl, hne.symm]
    · simp [limitClause, hl]
  · by_cases hl : FormValue r "length" = "-1"
    · simp [limitClause, hl]
    · simp [limitClause, hl, hne]
  · rw [buildAcc_statement]; rfl
  · intro hno
    refine ⟨orderedText r t additionalWhere groupBy columns c ++
      limitClause (FormValue r "length"), rfl, ?_⟩
    by_cases hl : FormValue r "length" = "-1"
    · simp only [limitClause, hl, ne_eq, not_true_eq_false, if_false, String.append_empty,
        iff_false]
      exact hno
    · simp only [limitClause, hl, ne_eq, not_false_eq_true, if_true, iff_true,
        String.data_append]
      exact List.suffix_append _ _

theorem limit_clause_iff_witness :
    index idNameEmail (Atoi (FormValue ⟨[("order[0][column]", "1"),
        ("order[0][dir]", "desc"), ("length", "-1")]⟩ "order[0][column]")).1 =
      some (Column.mk "name" "" "" "") ∧
    pageStatement ⟨[("order[0][column]", "1"), ("order[0][dir]", "desc"), ("length", "-1")]⟩
        "users" "" "" idNameEmail =
      some (orderedText ⟨[("order[0][column]", "1"), ("order[0][dir]", "desc"),
        ("length", "-1")]⟩ "users" "" "" idNameEmail (Column.mk "name" "" "" "")) :=
  ⟨by decide,
    (limit_clause_iff ⟨[("order[0][column]", "1"), ("order[0][dir]", "desc"),
      ("length", "-1")]⟩ "users" "" "" idNameEmail (Column.mk "name" "" "" "")
      (by decide)).2.1.mpr (by decide)⟩

/-- C12: for a non-empty column list the page-data statement begins with `SELECT `, the
SELECT list and ` FROM t WHERE `; the list has one item per column, in column order,
joined by `, `, the item being the wrapper `IF(ISNULL(d),"",d)` without grouping and
the bare `d` with grouping, where `d` is the `Display` of the column or its `Name` when
blank. -/
theorem select_list_text (r : Request) (t additionalWhere groupBy : String)
    (columns : List Column) (_hne : columns ≠ []) :
    (buildAcc t additionalWhere groupBy columns).statement =
        "SELECT " ++ selectList groupBy columns ++ " FROM " ++ t ++ " WHERE " ++
          whereText additionalWhere groupBy columns ++ pageGroup groupBy ∧
      pageStatement r t additionalWhere groupBy columns =
        (index columns (Atoi (FormValue r "order[0][column]")).1).map (fun c =>
          "SELECT " ++ selectList groupBy columns ++ " FROM " ++ t ++ " WHERE " ++
            whereText additionalWhere groupBy columns ++ pageGroup groupBy ++
            " ORDER BY " ++ orderExpr c ++ " " ++ FormValue r "order[0][dir]" ++
            limitClause (FormValue r "length")) ∧
      selectList groupBy columns =
        String.intercalate ", " (columns.map (selectItem groupBy)) ∧
      (columns.map (selectItem groupBy)).length = columns.length ∧
      ∀ c : Column, selectItem groupBy c =
        if groupBy = "" then
          "IF(ISNULL(" ++ (if c.Display ≠ "" then c.Display else c.Name) ++ "),\"\"," ++
            (if c.Display ≠ "" then c.Display else c.Name) ++ ")"
        else (if c.Display ≠ "" then c.Display else c.Name) := by
  refine ⟨?_, ?_, commaJoin_eq_intercalate _, List.length_map _ _, fun c => ?_⟩
  · rw [buildAcc_statement, pageHead_eq]
  · rw [pageStatement_eq_map]
    simp only [orderedText, pageHead_eq]
  · by_cases hg : groupBy = "" <;> by_cases hd : c.Display = "" <;>
      simp [selectItem, displayExpr, hg, hd]

theorem select_list_text_witness :
    idNameEmail ≠ [] ∧
      (buildAcc "users" "" "" idNameEmail).statement =
        "SELECT IF(ISNULL(id),\"\",id), IF(ISNULL(name),\"\",name), IF(ISNULL(email),\"\",email) FROM users WHERE id LIKE CONCAT('%', :search, '%') OR name LIKE CONCAT('%', :search, '%') OR email LIKE CONCAT('%', :search, '%')" :=
  ⟨by decide,
    (select_list_text ⟨[]⟩ "users" "" "" idNameEmail (by decide)).1.trans rfl⟩

/-- C13 (the code at the failing input): a row of the grouped query with two result
columns whose second value is NULL scans successfully, yet its projected row holds one
value, the nil being dropped by the type switch. -/
theorem projected_row_shorter_than_columns :
    Scan 2 (DriverRow.values [Value.bytes "Sales", Value.null]) =
        some [Value.bytes "Sales", Value.null] ∧
      projectLoop [Value.bytes "Sales", Value.null] [] = [Cell.str "Sales"] ∧
      (projectLoop [Value.bytes "Sales", Value.null] []).length ≠ 2 ∧
      DataTables
          (constDb [some 1] [some 1]
            (some ⟨["department", "MAX(bonus)"],
              [DriverRow.values [Value.bytes "Sales", Value.null]]⟩))
          firstPage "person" "" "department" departmentBonus =
        Outcome.response ⟨5, 1, 1, Data.rows [[Cell.str "Sales"]]⟩ := by
  refine ⟨by decide, by decide, by decide, rfl⟩

/-- C14 (the code at the failing input): when both count queries succeed and the
page-data query returns an error, the handler panics at `rows.Columns()` and writes no
response. -/
theorem page_query_failure_panics :
    pageStatement firstPage "users" "" "" idNameEmail ≠ none ∧
      DataTables (constDb [some 3] [some 2] none) firstPage "users" "" "" idNameEmail =
        Outcome.panic ∧
      DataTables (constDb [some 3] [some 2] none) firstPage "users" "" "" idNameEmail ≠
        Outcome.response ⟨5, 3, 2, Data.zero⟩ := by
  refine ⟨by decide, rfl, by decide⟩

/-- C15: when the three queries succeed and the order column exists, the response has
`recordsTotal` and `recordsFiltered` equal to the results of the two count queries, and
`data` is the integer 0 if and only if the list of projected rows is empty, and is
that list otherwise. -/
theorem response_data_field (db : Database) (r : Request)
    (t additionalWhere groupBy : String) (columns : List Column)
    (arows rows : List (Option Int)) (total filtered : Int) (statement : String)
    (prows : Rows)
    (hq : db.Query (totalQuery t additionalWhere groupBy) = some arows)
    (ht : countLoop arows 0 = some total)
    (hn : db.NamedQueryCount (countFilteredQuery t additionalWhere groupBy columns)
      (countFilteredArgs r) = some rows)
    (hf : countLoop rows 0 = some filtered)
    (hs : pageStatement r t additionalWhere groupBy columns = some statement)
    (hp : db.NamedQueryRows statement (pageArgs r) = some prows) :
    ∃ out : Output,
      DataTables db r t additionalWhere groupBy columns = Outcome.response out ∧
        out.recordsTotal = total ∧ out.recordsFiltered = filtered ∧
        (out.data = Data.zero ↔ rowsLoop prows.Columns.length prows.next [] = []) ∧
        (rowsLoop prows.Columns.length prows.next [] ≠ [] →
          out.data = Data.rows (rowsLoop prows.Columns.length prows.next [])) := by
  refine ⟨respond r total filtered (rowsLoop prows.Columns.length prows.next []), ?_, rfl, rfl,
    ?_, ?_⟩
  · simp [DataTables, hq, ht, hn, hf, hs, pageRows, hp]
  · by_cases he : rowsLoop prows.Columns.length prows.next [] = [] <;> simp [respond, he]
  · intro he
    simp [respond, he]

theorem response_data_field_witness :
    ∃ out : Output,
      DataTables
          (constDb [some 3] [some 2]
            (some ⟨["id", "name", "email"],
              [DriverRow.values [Value.int64 7, Value.bytes "al", Value.bytes "al@x.org"]]⟩))
          firstPage "users" "" "" idNameEmail = Outcome.response out ∧
        out.recordsTotal = 3 ∧ out.recordsFiltered = 2 ∧
        out.data = Data.rows [[Cell.int64 7, Cell.str "al", Cell.str "al@x.org"]] :=
  (response_data_field
    (constDb [some 3] [some 2]
      (some ⟨["id", "name", "email"],
        [DriverRow.values [Value.int64 7, Value.bytes "al", Value.bytes "al@x.org"]]⟩))
    firstPage "users" "" "" idNameEmail [some 3] [some 2] 3 2
    "SELECT IF(ISNULL(id),\"\",id), IF(ISNULL(name),\"\",name), IF(ISNULL(email),\"\",email) FROM users WHERE id LIKE CONCAT('%', :search, '%') OR name LIKE CONCAT('%', :search, '%') OR email LIKE CONCAT('%', :search, '%') ORDER BY id asc LIMIT :length OFFSET :start"
    ⟨["id", "name", "email"],
      [DriverRow.values [Value.int64 7, Value.bytes "al", Value.bytes "al@x.org"]]⟩
    rfl rfl rfl rfl rfl rfl).imp
    (fun _ h => ⟨h.1, h.2.1, h.2.2.1, h.2.2.2.2 (by decide)⟩)

/-- C16: with an empty grouping expression every column is search-eligible; otherwise
a column is eligible exactly when its `Name` occurs inside the grouping expression, or
its `Search` is non-empty and occurs inside it.  The eligible columns are a sublist of
the columns, in their order; for `id`, `department`, `salary` and the grouping
expression `department` they are the column `department` alone, whose term is the whole
disjunction. -/
theorem search_eligibility (groupBy : String) (columns : List Column) :
    searchColumns "" columns = columns ∧
      searchColumns groupBy columns =
        columns.filter (fun c => decide (groupBy = "" ∨ c.Name.data <:+: groupBy.data ∨
          (c.Search ≠ "" ∧ c.Search.data <:+: groupBy.data))) ∧
      (searchColumns groupBy columns).Sublist columns ∧
      searchColumns "department" [Column.mk "id" "" "" "", Column.mk "department" "" "" "",
        Column.mk "salary" "" "" ""] = [Column.mk "department" "" "" ""] ∧
      disjunction "department" [Column.mk "id" "" "" "", Column.mk "department" "" "" "",
        Column.mk "salary" "" "" ""] = "department LIKE CONCAT('%', :search, '%')" := by
  refine ⟨searchColumns_nogroup columns, ?_, ?_, by decide, by decide⟩
  · rw [searchColumns_eq_filter]
    apply List.filter_congr
    intro c _
    rw [Bool.eq_iff_iff]
    simp only [eligible, Bool.or_eq_true, Bool.and_eq_true, decide_eq_true_eq, Contains_iff,
      bne_iff_ne, ne_eq]
    tauto
  · rw [searchColumns_eq_filter]
    exact List.filter_sublist columns

/-- C17: the projected row of the scanned values is the sequence, in order, of the
coerced values of the four recognised kinds (bytes to the string of the same bytes,
`int64`, `float64` and `time.Time` unchanged); nil and every other kind contribute
nothing, so its length is the number of recognised values, at most the number of
values. -/
theorem projection_keeps_recognised (vs : List Value) :
    projectLoop vs [] = vs.filterMap coerce ∧
      (projectLoop vs []).length = vs.countP (fun v => (coerce v).isSome) ∧
      (projectLoop vs []).length ≤ vs.length ∧
      (∀ (b : String) (rest : List Value) (m : List Cell),
        projectLoop (Value.bytes b :: rest) m = projectLoop rest (m ++ [Cell.str b])) ∧
      (∀ (i : Int) (rest : List Value) (m : List Cell),
        projectLoop (Value.int64 i :: rest) m = projectLoop rest (m ++ [Cell.int64 i])) ∧
      (∀ (f : Nat) (rest : List Value) (m : List Cell),
        projectLoop (Value.float64 f :: rest) m = projectLoop rest (m ++ [Cell.float64 f])) ∧
      (∀ (t : Int) (rest : List Value) (m : List Cell),
        projectLoop (Value.time t :: rest) m = projectLoop rest (m ++ [Cell.time t])) ∧
      (∀ (rest : List Value) (m : List Cell),
        projectLoop (Value.null :: rest) m = projectLoop rest m) ∧
      (∀ (k : String) (rest : List Value) (m : List Cell),
        projectLoop (Value.other k :: rest) m = projectLoop rest m) := by
  have h : projectLoop vs [] = vs.filterMap coerce := by simp [projectLoop_eq]
  refine ⟨h, ?_, ?_, fun _ _ _ => rfl, fun _ _ _ => rfl, fun _ _ _ => rfl,
    fun _ _ _ => rfl, fun _ _ => rfl, fun _ _ _ => rfl⟩
  · rw [h, List.length_filterMap_eq_countP]
  · rw [h]; exact List.length_filterMap_le coerce vs

/-- C18: when the page-data query succeeds, the row list holds, in result-set order,
the projected row of each row whose scan succeeds and nothing for a row whose scan
fails, later rows being processed all the same; a scanned row counts even when its
projected row is empty, so `data` is 0 exactly when no row is scanned successfully. -/
theorem rows_of_successful_scans (db : Database) (r : Request) (statement : String)
    (prows : Rows) (total filtered : Int)
    (hp : db.NamedQueryRows statement (pageArgs r) = some prows) :
    pageRows db r statement = some (rowsLoop prows.Columns.length prows.next []) ∧
      rowsLoop prows.Columns.length prows.next [] =
        prows.next.filterMap (fun row =>
          (Scan prows.Columns.length row).map (fun vs => projectLoop vs [])) ∧
      (rowsLoop prows.Columns.length prows.next []).length =
        prows.next.countP (fun row => (Scan prows.Columns.length row).isSome) ∧
      ((respond r total filtered (rowsLoop prows.Columns.length prows.next [])).data =
          Data.zero ↔
        ∀ row ∈ prows.next, Scan prows.Columns.length row = none) := by
  have hmap : (fun row => (Scan prows.Columns.length row).map (fun vs => projectLoop vs [])) =
      projected prows.Columns.length := by
    funext row
    simp [projected, projectLoop_eq]
  have hlen : (rowsLoop prows.Columns.length prows.next []).length =
      prows.next.countP (fun row => (Scan prows.Columns.length row).isSome) := by
    rw [rowsLoop_eq, List.nil_append, List.length_filterMap_eq_countP]
    congr 1
    funext row
    simp [projected]
  refine ⟨by simp [pageRows, hp], ?_, hlen, ?_⟩
  · rw [hmap, rowsLoop_eq, List.nil_append]
  · have hz : (respond r total filtered (rowsLoop prows.Columns.length prows.next [])).data =
        Data.zero ↔ (rowsLoop prows.Columns.length prows.next []).length = 0 := by
      by_cases he : (rowsLoop prows.Columns.length prows.next []).length = 0 <;>
        simp [respond, he]
    rw [hz, hlen, List.countP_eq_zero]
    simp

theorem rows_of_successful_scans_witness :
    rowsLoop 2 [DriverRow.values [Value.int64 1, Value.bytes "a"], DriverRow.broken,
        DriverRow.values [Value.null, Value.null]] [] =
      [[Cell.int64 1, Cell.str "a"], []] :=
  ((rows_of_successful_scans
    (constDb [some 3] [some 3]
      (some ⟨["id", "name"], [DriverRow.values [Value.int64 1, Value.bytes "a"],
        DriverRow.broken, DriverRow.values [Value.null, Value.null]]⟩))
    firstPage "SELECT id, name FROM t" ⟨["id", "name"],
      [DriverRow.values [Value.int64 1, Value.bytes "a"], DriverRow.broken,
        DriverRow.values [Value.null, Value.null]]⟩ 3 3 rfl).2.1).trans (by decide)

/-- C19 (counterexample): the numeral `99999999999999999999` fails to parse as an
`int` and `Atoi` returns the upper bound of the range with the error; given as
`order[0][column]` the request is aborted by a panic although the database answers all
queries, and given as `draw` the response carries that bound, not the value of the
numeral.  The value `99999999999999999999x`, which is not a numeral, gives the same
`draw`, not 0. -/
theorem parse_failure_out_of_range :
    Atoi "99999999999999999999" = (9223372036854775807, false) ∧
      DataTables (constDb [some 3] [some 2] (some ⟨["id", "name", "email"], []⟩))
          ⟨[("draw", "5"), ("order[0][column]", "99999999999999999999"),
            ("order[0][dir]", "asc"), ("length", "10")]⟩ "users" "" "" idNameEmail =
        Outcome.panic ∧
      DataTables (constDb [some 3] [some 2] (some ⟨["id", "name", "email"], []⟩))
          ⟨[("draw", "5"), ("order[0][column]", "0"),
            ("order[0][dir]", "asc"), ("length", "10")]⟩ "users" "" "" idNameEmail =
        Outcome.response ⟨5, 3, 2, Data.zero⟩ ∧
      DataTables (constDb [some 3] [some 2] (some ⟨["id", "name", "email"], []⟩))
          ⟨[("draw", "99999999999999999999"), ("order[0][column]", "0"),
            ("order[0][dir]", "asc"), ("length", "10")]⟩ "users" "" "" idNameEmail =
        Outcome.response ⟨9223372036854775807, 3, 2, Data.zero⟩ ∧
      isNumeral "99999999999999999999x" = false ∧
      DataTables (constDb [some 3] [some 2] (some ⟨["id", "name", "email"], []⟩))
          ⟨[("draw", "99999999999999999999x"), ("order[0][column]", "0"),
            ("order[0][dir]", "asc"), ("length", "10")]⟩ "users" "" "" idNameEmail =
        Outcome.response ⟨9223372036854775807, 3, 2, Data.zero⟩ := by
  refine ⟨by decide, rfl, rfl, rfl, by decide, rfl⟩

/-- C19 (amended): when the database answers the three queries and `order[0][column]`
parses to an existing column index, or is missing, or is not a numeral with leading
digits below `2 ^ 64`, a column 0 being present, the response is written; its `draw` is
the value of the `draw` form value when that is a decimal numeral, with or without a
sign, within the range of a 64-bit `int`, and 0 when it is missing, empty, or not a
numeral with leading digits below `2 ^ 64`, the other fields being those of the query
results. -/
theorem draw_field (db : Database) (r : Request)
    (t additionalWhere groupBy : String) (columns : List Column)
    (arows rows : List (Option Int)) (total filtered : Int) (prows : Rows)
    (i : Nat) (c : Column)
    (hq : db.Query (totalQuery t additionalWhere groupBy) = some arows)
    (ht : countLoop arows 0 = some total)
    (hn : db.NamedQueryCount (countFilteredQuery t additionalWhere groupBy columns)
      (countFilteredArgs r) = some rows)
    (hf : countLoop rows 0 = some filtered)
    (hi : columns.get? i = some c)
    (hsel : (Atoi (FormValue r "order[0][column]")).1 = (i : Int) ∨
      (isNumeral (FormValue r "order[0][column]") = false ∧
        decimalValue (leadingDigits (FormValue r "order[0][column]")) < 2 ^ 64 ∧ i = 0) ∨
      (r.Form.lookup "order[0][column]" = none ∧ i = 0))
    (hp : ∀ statement : String,
      pageStatement r t additionalWhere groupBy columns = some statement →
        db.NamedQueryRows statement (pageArgs r) = some prows) :
    ∃ out : Output,
      DataTables db r t additionalWhere groupBy columns = Outcome.response out ∧
        (∀ n : Nat, (FormValue r "draw").toNat? = some n → n < 2 ^ 63 → out.draw = n) ∧
        (∀ (s : String) (n : Nat), FormValue r "draw" = "+" ++ s → s.toNat? = some n →
          n < 2 ^ 63 → out.draw = n) ∧
        (∀ (s : String) (n : Nat), FormValue r "draw" = "-" ++ s → s.toNat? = some n →
          n ≤ 2 ^ 63 → out.draw = -(n : Int)) ∧
        (isNumeral (FormValue r "draw") = false →
          decimalValue (leadingDigits (FormValue r "draw")) < 2 ^ 64 → out.draw = 0) ∧
        (FormValue r "draw" = "" → out.draw = 0) ∧
        (r.Form.lookup "draw" = none → out.draw = 0) ∧
        out.recordsTotal = total ∧ out.recordsFiltered = filtered ∧
        out.data =
          (if (rowsLoop prows.Columns.length prows.next []).length = 0 then Data.zero
            else Data.rows (rowsLoop prows.Columns.length prows.next [])) := by
  have hs := pageStatement_of_sel r t additionalWhere groupBy columns i c hi hsel
  refine ⟨respond r total filtered (rowsLoop prows.Columns.length prows.next []), ?_, ?_, ?_,
    ?_, ?_, ?_, ?_, rfl, rfl, rfl⟩
  · simp [DataTables, hq, ht, hn, hf, hs, pageRows, hp _ hs]
  · intro n h hlt
    show (Atoi (FormValue r "draw")).1 = (n : Int)
    rw [Atoi_of_toNat _ n h hlt]
  · intro s n hd h hlt
    show (Atoi (FormValue r "draw")).1 = (n : Int)
    rw [hd, Atoi_plus_of_toNat s n h hlt]
  · intro s n hd h hle
    show (Atoi (FormValue r "draw")).1 = -(n : Int)
    rw [hd, Atoi_minus_of_toNat s n h hle]
  · intro h hv
    show (Atoi (FormValue r "draw")).1 = 0
    rw [Atoi_of_not_numeral _ h hv]
  · intro hv
    show (Atoi (FormValue r "draw")).1 = 0
    rw [hv]; rfl
  · intro h
    have hv : FormValue r "draw" = "" := by simp [FormValue, h]
    show (Atoi (FormValue r "draw")).1 = 0
    rw [hv]; rfl

theorem draw_field_witness :
    ∃ out : Output,
      DataTables (constDb [some 3] [some 2] (some ⟨["id", "name", "email"], []⟩))
          ⟨[("draw", "abc"), ("order[0][column]", "xyz"), ("order[0][dir]", "asc"),
            ("length", "10")]⟩ "users" "" "" idNameEmail = Outcome.response out ∧
        out.draw = 0 ∧ out.recordsTotal = 3 ∧ out.recordsFiltered = 2 :=
  (draw_field (constDb [some 3] [some 2] (some ⟨["id", "name", "email"], []⟩))
    ⟨[("draw", "abc"), ("order[0][column]", "xyz"), ("order[0][dir]", "asc"),
      ("length", "10")]⟩ "users" "" "" idNameEmail [some 3] [some 2] 3 2
    ⟨["id", "name", "email"], []⟩ 0 (Column.mk "id" "" "" "") rfl rfl rfl rfl rfl
    (Or.inr (Or.inl ⟨by decide, by decide, rfl⟩)) (fun _ _ => rfl)).imp
    (fun _ h => ⟨h.1, h.2.2.2.2.1 (by decide) (by decide), h.2.2.2.2.2.2.2.1,
      h.2.2.2.2.2.2.2.2.1⟩)

end Godatatables
